import Mathlib

/-!
Shallow embedding of the token cache of `src/token_cache.rs` from the
`oci-distribution` repository: the token model (`RegistryToken`,
`RegistryTokenType`), the cache key (`TokenCacheKey`), the expiration
resolver and the cache store (`TokenCache.insert`, `TokenCache.get`).

Machine integers: the Rust code stores `expiration : u64` and compares it to
wall-clock seconds (`u64`).  We model `u64` values as `Nat`, writing the wrap
`% 2^64` exactly where the Rust arithmetic may overflow, and passing the clock
(`SystemTime::now()` as seconds since the epoch) as an explicit `now : Nat`
argument.  The external `jwt` crate's `parse_unverified` is abstracted as an
oracle `String → JwtParse` covering its three outcome shapes used by the code.
-/

/-- `u64::MAX`. -/
def U64_MAX : Nat := 2 ^ 64 - 1

/-- `RegistryToken` from `token_cache.rs`: a token granted during the
OAuth2-like workflow, either wire field `token` or `access_token`. -/
inductive RegistryToken where
  | Token (token : String)
  | AccessToken (access_token : String)
deriving DecidableEq, Repr

/-- `RegistryToken::token`: the token value regardless of variant. -/
def RegistryToken.token : RegistryToken → String
  | .Token t => t
  | .AccessToken a => a

/-- `RegistryToken::bearer_token`: Authorization-header form. -/
def RegistryToken.bearer_token (t : RegistryToken) : String :=
  "Bearer " ++ t.token

/-- The `fmt::Debug` implementation for `RegistryToken`: both variants print
their struct name and a single field whose value is the literal
`"<redacted>"`, never the stored token string. -/
def RegistryToken.fmt_debug : RegistryToken → String
  | .Token _ => "Token \x7b token: \"<redacted>\" \x7d"
  | .AccessToken _ => "AccessToken \x7b access_token: \"<redacted>\" \x7d"

/-- `RegistryTokenType`: bearer token or basic-auth pair. -/
inductive RegistryTokenType where
  | Bearer (t : RegistryToken)
  | Basic (username password : String)
deriving DecidableEq, Repr

/-- `RegistryOperation`: desired operation for registry authentication. -/
inductive RegistryOperation where
  | Push
  | Pull
deriving DecidableEq, Repr

/-- `TokenCacheKey`: (registry, repository, operation). -/
structure TokenCacheKey where
  registry : String
  repository : String
  operation : RegistryOperation
deriving DecidableEq, Repr

/-- `TokenCacheValue`: stored token plus absolute expiry (u64 seconds). -/
structure TokenCacheValue where
  token : RegistryTokenType
  expiration : Nat
deriving DecidableEq, Repr

/-- Modelled from the spec: the external `Reference` collaborator
(`crate::reference::Reference`, not part of the cache source).  The cache
consumes only `resolve_registry() -> string` and `repository() -> string`,
so a reference is modelled as the pair of those two accessor results. -/
structure Reference where
  resolve_registry : String
  repository : String
deriving DecidableEq, Repr

/-- Outcome of the external `jwt` crate's
`Token::<Header, Claims, Unverified>::parse_unverified` as used by `insert`:
success exposing `claims().registered.expiration` (an optional u64),
`Err(jwt::Error::NoClaimsComponent)`, or any other structural error. -/
inductive JwtParse where
  | ok (expiration : Option Nat)
  | noClaimsComponent
  | otherError
deriving DecidableEq, Repr

/-- `TokenCache`: the map behind `Arc<RwLock<BTreeMap<..>>>`, modelled
extensionally as a function from keys to optional entries, plus the
`default_expiration_secs` configuration scalar (`usize`). -/
structure TokenCache where
  tokens : TokenCacheKey → Option TokenCacheValue
  default_expiration_secs : Nat

/-- `#[derive(Default)]` for `TokenCache`: empty map,
`default_expiration_secs = usize::default() = 0`. -/
def TokenCache.default : TokenCache :=
  { tokens := fun _ => none, default_expiration_secs := 0 }

/-- The cache key computed by both `insert` and `get` from
`reference.resolve_registry()`, `reference.repository()` and the operation. -/
def cache_key (reference : Reference) (op : RegistryOperation) : TokenCacheKey :=
  { registry := reference.resolve_registry
    repository := reference.repository
    operation := op }

/-- The expiration resolution performed at the top of `TokenCache::insert`
(the `match token` on lines 105-140): `Basic` never expires (`u64::MAX`);
a `Bearer` token is parsed unverified, a declared expiration is used verbatim
with `unwrap_or(u64::MAX)` when the claim is absent, `NoClaimsComponent`
falls back to `now + default_expiration_secs` (u64 addition), and any other
parse error makes `insert` return early (`none` here = rejection). -/
def resolve_expiration (parse : String → JwtParse)
    (default_expiration_secs : Nat) (now : Nat) :
    RegistryTokenType → Option Nat
  | .Basic _ _ => some U64_MAX
  | .Bearer t =>
    match parse t.token with
    | .ok e => some (e.getD U64_MAX)
    | .noClaimsComponent => some ((now + default_expiration_secs) % 2 ^ 64)
    | .otherError => none

/-- `TokenCache::insert`: resolve the expiration; on rejection return with the
store untouched, otherwise overwrite the entry at the computed key. -/
def TokenCache.insert (c : TokenCache) (reference : Reference)
    (op : RegistryOperation) (token : RegistryTokenType)
    (parse : String → JwtParse) (now : Nat) : TokenCache :=
  match resolve_expiration parse c.default_expiration_secs now token with
  | none => c
  | some expiration =>
    { c with
      tokens := fun k =>
        if k = cache_key reference op then
          some { token := token, expiration := expiration }
        else c.tokens k }

/-- `TokenCache::get`: look up the computed key; a present entry is a hit
exactly when `¬ (now > expiration)`, returning a clone of the stored token;
the store itself is only read, which the explicit state passing records by
returning the (unchanged) cache alongside the result. -/
def TokenCache.get (c : TokenCache) (reference : Reference)
    (op : RegistryOperation) (now : Nat) :
    Option RegistryTokenType × TokenCache :=
  match c.tokens (cache_key reference op) with
  | some v => if now > v.expiration then (none, c) else (some v.token, c)
  | none => (none, c)

/-- Concrete reference used by the concrete instantiations below. -/
def ref0 : Reference := { resolve_registry := "docker.io", repository := "library/busybox" }

/-- A cache with an empty map and a nonzero configured default expiration. -/
def c7 : TokenCache := { tokens := fun _ => none, default_expiration_secs := 7 }

/-- A parse oracle returning a fixed outcome for every token string. -/
def parse_const (r : JwtParse) : String → JwtParse := fun _ => r

theorem TokenCache.insert_default_expiration_secs (c : TokenCache)
    (reference : Reference) (op : RegistryOperation) (token : RegistryTokenType)
    (parse : String → JwtParse) (now : Nat) :
    (c.insert reference op token parse now).default_expiration_secs
      = c.default_expiration_secs := by
  cases hres : resolve_expiration parse c.default_expiration_secs now token <;>
    simp [TokenCache.insert, hres]

theorem TokenCache.insert_frame_lemma (c : TokenCache)
    (reference : Reference) (op : RegistryOperation) (token : RegistryTokenType)
    (parse : String → JwtParse) (now : Nat) (k : TokenCacheKey)
    (hk : k ≠ cache_key reference op) :
    (c.insert reference op token parse now).tokens k = c.tokens k := by
  cases hres : resolve_expiration parse c.default_expiration_secs now token <;>
    simp [TokenCache.insert, hres, hk]

theorem TokenCache.insert_stores (c : TokenCache)
    (reference : Reference) (op : RegistryOperation) (token : RegistryTokenType)
    (parse : String → JwtParse) (now e : Nat)
    (hres : resolve_expiration parse c.default_expiration_secs now token = some e) :
    (c.insert reference op token parse now).tokens (cache_key reference op)
      = some { token := token, expiration := e } := by
  simp [TokenCache.insert, hres]

theorem TokenCache.get_hit (c : TokenCache)
    (reference : Reference) (op : RegistryOperation) (now : Nat)
    (v : TokenCacheValue) (hv : c.tokens (cache_key reference op) = some v)
    (h : now ≤ v.expiration) :
    (c.get reference op now).1 = some v.token := by
  simp [TokenCache.get, hv, Nat.not_lt.mpr h]

theorem TokenCache.get_expired (c : TokenCache)
    (reference : Reference) (op : RegistryOperation) (now : Nat)
    (v : TokenCacheValue) (hv : c.tokens (cache_key reference op) = some v)
    (h : v.expiration < now) :
    (c.get reference op now).1 = none := by
  simp [TokenCache.get, hv, h]

/-- C1 is false on the code: for a Bearer token whose string parses
successfully but whose claims declare no expiration value, `insert` stores
`u64::MAX` via `unwrap_or(u64::MAX)` — not insertion time plus
`default_expiration_secs` (here `100 + 7 = 107`) — so `get` at
`insert_time + default_expiration_secs + 1 = 108` still hits. -/
theorem C1_counterexample :
    (c7.insert ref0 .Pull (.Bearer (.Token "t0")) (parse_const (.ok none)) 100).tokens
        (cache_key ref0 .Pull)
      = some { token := .Bearer (.Token "t0"), expiration := U64_MAX } ∧
    ¬ ((c7.insert ref0 .Pull (.Bearer (.Token "t0")) (parse_const (.ok none)) 100).tokens
        (cache_key ref0 .Pull)
      = some { token := .Bearer (.Token "t0"), expiration := 107 }) ∧
    ((c7.insert ref0 .Pull (.Bearer (.Token "t0")) (parse_const (.ok none)) 100).get
        ref0 .Pull 108).1 = some (.Bearer (.Token "t0")) := by
  decide

/-- C1 (amended): for every Bearer token whose string parses successfully as
an unverified claim set but whose claims declare no expiration value, `insert`
stores the entry with expiry `u64::MAX`, so a subsequent `get` hits at every
u64-representable time (the entry never expires); the
`now + default_expiration_secs` fallback applies only when parsing fails with
the missing-claims-component error. -/
theorem C1_ok_none_stores_u64_max (c : TokenCache) (reference : Reference)
    (op : RegistryOperation) (t : RegistryToken) (parse : String → JwtParse)
    (now t' : Nat) (hp : parse t.token = .ok none) (ht : t' ≤ U64_MAX) :
    (c.insert reference op (.Bearer t) parse now).tokens (cache_key reference op)
      = some { token := .Bearer t, expiration := U64_MAX } ∧
    ((c.insert reference op (.Bearer t) parse now).get reference op t').1
      = some (.Bearer t) := by
  have hres : resolve_expiration parse c.default_expiration_secs now (.Bearer t)
      = some U64_MAX := by
    simp [resolve_expiration, hp]
  have hstore := TokenCache.insert_stores c reference op (.Bearer t) parse now U64_MAX hres
  exact ⟨hstore, TokenCache.get_hit _ reference op t' _ hstore ht⟩

/-- Witness for C1's amended theorem at concrete inputs. -/
theorem C1_witness :
    ((c7.insert ref0 .Pull (.Bearer (.Token "t0")) (parse_const (.ok none)) 100).get
        ref0 .Pull 108).1 = some (.Bearer (.Token "t0")) :=
  (C1_ok_none_stores_u64_max c7 ref0 .Pull (.Token "t0") (parse_const (.ok none))
    100 108 rfl (by decide)).2

/-- C2: for every Bearer token whose decoded claims declare expiration `E`,
the stored expiry is `E` verbatim, and `get` with the same key hits at every
time `t1 ≤ E` (including `t1 = E`) and misses at every time `t2 > E`. -/
theorem C2_bearer_declared_expiration (c : TokenCache) (reference : Reference)
    (op : RegistryOperation) (t : RegistryToken) (parse : String → JwtParse)
    (now E t1 t2 : Nat) (hp : parse t.token = .ok (some E))
    (h1 : t1 ≤ E) (h2 : E < t2) :
    (c.insert reference op (.Bearer t) parse now).tokens (cache_key reference op)
      = some { token := .Bearer t, expiration := E } ∧
    ((c.insert reference op (.Bearer t) parse now).get reference op t1).1
      = some (.Bearer t) ∧
    ((c.insert reference op (.Bearer t) parse now).get reference op t2).1
      = none := by
  have hres : resolve_expiration parse c.default_expiration_secs now (.Bearer t)
      = some E := by
    simp [resolve_expiration, hp]
  have hstore := TokenCache.insert_stores c reference op (.Bearer t) parse now E hres
  exact ⟨hstore, TokenCache.get_hit _ reference op t1 _ hstore h1,
    TokenCache.get_expired _ reference op t2 _ hstore h2⟩

/-- Witness for C2 at concrete inputs: declared expiration 500, hit at 500,
miss at 501. -/
theorem C2_witness :
    ((c7.insert ref0 .Pull (.Bearer (.Token "t0")) (parse_const (.ok (some 500))) 100).get
        ref0 .Pull 500).1 = some (.Bearer (.Token "t0")) ∧
    ((c7.insert ref0 .Pull (.Bearer (.Token "t0")) (parse_const (.ok (some 500))) 100).get
        ref0 .Pull 501).1 = none :=
  ⟨(C2_bearer_declared_expiration c7 ref0 .Pull (.Token "t0")
      (parse_const (.ok (some 500))) 100 500 500 501 rfl (by decide) (by decide)).2.1,
   (C2_bearer_declared_expiration c7 ref0 .Pull (.Token "t0")
      (parse_const (.ok (some 500))) 100 500 500 501 rfl (by decide) (by decide)).2.2⟩

/-- C3: a Bearer token that fails structural decoding for any reason other
than a missing claims component makes `insert` a complete no-op: the returned
cache is the input cache (map and configuration unchanged), and `insert`
returns normally (its embedding is total, no error value). -/
theorem C3_malformed_token_noop (c : TokenCache) (reference : Reference)
    (op : RegistryOperation) (t : RegistryToken) (parse : String → JwtParse)
    (now : Nat) (hp : parse t.token = .otherError) :
    c.insert reference op (.Bearer t) parse now = c := by
  simp [TokenCache.insert, resolve_expiration, hp]

/-- Witness for C3 at concrete inputs. -/
theorem C3_witness :
    c7.insert ref0 .Pull (.Bearer (.Token "bad")) (parse_const .otherError) 100 = c7 :=
  C3_malformed_token_noop c7 ref0 .Pull (.Token "bad") (parse_const .otherError) 100 rfl

/-- C4: a `Basic(username, password)` credential is stored with expiry
`u64::MAX`, so `get` with the same key hits at every u64-representable time
(in particular at any time at or after insertion): the entry never expires. -/
theorem C4_basic_never_expires (c : TokenCache) (reference : Reference)
    (op : RegistryOperation) (u p : String) (parse : String → JwtParse)
    (now t' : Nat) (ht : t' ≤ U64_MAX) :
    (c.insert reference op (.Basic u p) parse now).tokens (cache_key reference op)
      = some { token := .Basic u p, expiration := U64_MAX } ∧
    ((c.insert reference op (.Basic u p) parse now).get reference op t').1
      = some (.Basic u p) := by
  have hres : resolve_expiration parse c.default_expiration_secs now (.Basic u p)
      = some U64_MAX := rfl
  have hstore := TokenCache.insert_stores c reference op (.Basic u p) parse now U64_MAX hres
  exact ⟨hstore, TokenCache.get_hit _ reference op t' _ hstore ht⟩

/-- Witness for C4 at concrete inputs: hit long after insertion. -/
theorem C4_witness :
    ((c7.insert ref0 .Push (.Basic "user" "pass") (parse_const .otherError) 100).get
        ref0 .Push 999999999).1 = some (.Basic "user" "pass") :=
  (C4_basic_never_expires c7 ref0 .Push "user" "pass" (parse_const .otherError)
    100 999999999 (by decide)).2

/-- C5: for two successive non-rejected inserts under an identical cache key,
the second unconditionally replaces the first: the map holds exactly the
second token with the second resolved expiry at that key, a `get` within the
second expiry observes the second token, and every other key is untouched. -/
theorem C5_second_insert_wins (c : TokenCache) (reference : Reference)
    (op : RegistryOperation) (tok1 tok2 : RegistryTokenType)
    (parse : String → JwtParse) (now1 now2 e2 t' : Nat) (k : TokenCacheKey)
    (_h1 : (resolve_expiration parse c.default_expiration_secs now1 tok1).isSome)
    (h2 : resolve_expiration parse c.default_expiration_secs now2 tok2 = some e2)
    (ht : t' ≤ e2) (hk : k ≠ cache_key reference op) :
    ((c.insert reference op tok1 parse now1).insert reference op tok2 parse now2).tokens
        (cache_key reference op) = some { token := tok2, expiration := e2 } ∧
    (((c.insert reference op tok1 parse now1).insert reference op tok2 parse now2).get
        reference op t').1 = some tok2 ∧
    ((c.insert reference op tok1 parse now1).insert reference op tok2 parse now2).tokens k
      = c.tokens k := by
  have h2' : resolve_expiration parse
      (c.insert reference op tok1 parse now1).default_expiration_secs now2 tok2
      = some e2 := by
    rw [TokenCache.insert_default_expiration_secs]; exact h2
  have hstore := TokenCache.insert_stores (c.insert reference op tok1 parse now1)
    reference op tok2 parse now2 e2 h2'
  refine ⟨hstore, TokenCache.get_hit _ reference op t' _ hstore ht, ?_⟩
  rw [TokenCache.insert_frame_lemma _ reference op tok2 parse now2 k hk,
    TokenCache.insert_frame_lemma _ reference op tok1 parse now1 k hk]

/-- Witness for C5 at concrete inputs: a Basic entry overwritten by a Bearer
entry with declared expiration 500; the untouched key is the Push key. -/
theorem C5_witness :
    (((c7.insert ref0 .Pull (.Basic "u" "p") (parse_const (.ok (some 500))) 50).insert
        ref0 .Pull (.Bearer (.Token "t2")) (parse_const (.ok (some 500))) 60).get
        ref0 .Pull 499).1 = some (.Bearer (.Token "t2")) :=
  (C5_second_insert_wins c7 ref0 .Pull (.Basic "u" "p") (.Bearer (.Token "t2"))
    (parse_const (.ok (some 500))) 50 60 500 499 (cache_key ref0 .Push)
    (by decide) rfl (by decide) (by decide)).2.1

/-- C6: `insert` changes at most the entry of its computed key — every
differing key's entry is unchanged — and for the same registry/repository a
`get` under a different operation returns exactly what it returned before the
insert (inserting under Pull cannot turn a Push lookup into a hit). -/
theorem C6_insert_frame (c : TokenCache) (reference : Reference)
    (op op' : RegistryOperation) (token : RegistryTokenType)
    (parse : String → JwtParse) (now t' : Nat) (k : TokenCacheKey)
    (hk : k ≠ cache_key reference op) (hop : op' ≠ op) :
    (c.insert reference op token parse now).tokens k = c.tokens k ∧
    ((c.insert reference op token parse now).get reference op' t').1
      = (c.get reference op' t').1 := by
  have hne : cache_key reference op' ≠ cache_key reference op := by
    intro h
    exact hop (congrArg TokenCacheKey.operation h)
  refine ⟨TokenCache.insert_frame_lemma c reference op token parse now k hk, ?_⟩
  unfold TokenCache.get
  rw [TokenCache.insert_frame_lemma c reference op token parse now _ hne]
  cases hv : c.tokens (cache_key reference op') with
  | none => rfl
  | some v => by_cases h : t' > v.expiration <;> simp [h]

/-- Witness for C6 at concrete inputs: after inserting a never-expiring Basic
entry under Pull, a Push lookup still misses. -/
theorem C6_witness :
    ((c7.insert ref0 .Pull (.Basic "u" "p") (parse_const .otherError) 50).get
        ref0 .Push 50).1 = (c7.get ref0 .Push 50).1 :=
  (C6_insert_frame c7 ref0 .Pull .Push (.Basic "u" "p") (parse_const .otherError)
    50 50 (cache_key ref0 .Push) (by decide) (by decide)).2

/-- C7: `get` never mutates the store: under every outcome (absent key,
expired entry, hit) the returned state is exactly the input cache, and the
result component is a pure function of the stored entry — on a hit it is a
copy of the stored token, on a miss nothing, with no entry evicted. -/
theorem C7_get_pure (c : TokenCache) (reference : Reference)
    (op : RegistryOperation) (now : Nat) :
    (c.get reference op now).2 = c ∧
    (c.get reference op now).1
      = (match c.tokens (cache_key reference op) with
         | some v => if now > v.expiration then none else some v.token
         | none => none) := by
  cases hv : c.tokens (cache_key reference op) with
  | none => simp [TokenCache.get, hv]
  | some v =>
    by_cases h : now > v.expiration <;> simp [TokenCache.get, hv, h]

/-- C8: the Debug representation of a `RegistryToken` is a fixed string per
variant containing the `"<redacted>"` placeholder, independent of the stored
token value: two tokens of the same variant with different token strings have
identical debug output, so the raw token never influences (or appears in) it. -/
theorem C8_debug_redacts (s1 s2 : String) :
    RegistryToken.fmt_debug (.Token s1) = "Token \x7b token: \"<redacted>\" \x7d" ∧
    RegistryToken.fmt_debug (.AccessToken s1)
      = "AccessToken \x7b access_token: \"<redacted>\" \x7d" ∧
    RegistryToken.fmt_debug (.Token s1) = RegistryToken.fmt_debug (.Token s2) ∧
    RegistryToken.fmt_debug (.AccessToken s1)
      = RegistryToken.fmt_debug (.AccessToken s2) :=
  ⟨rfl, rfl, rfl, rfl⟩

/-- C10: a `TokenCache` built by `Default` has `default_expiration_secs = 0`,
so a Bearer token whose parse fails with the missing-claims-component error is
stored with expiry equal to the insertion instant itself: `get` at the
insertion second hits, and `get` at any strictly later second misses. -/
theorem C10_default_zero_fallback (reference : Reference)
    (op : RegistryOperation) (t : RegistryToken) (parse : String → JwtParse)
    (now t2 : Nat) (hp : parse t.token = .noClaimsComponent)
    (hnow : now < 2 ^ 64) (h2 : now < t2) :
    TokenCache.default.default_expiration_secs = 0 ∧
    (TokenCache.default.insert reference op (.Bearer t) parse now).tokens
        (cache_key reference op)
      = some { token := .Bearer t, expiration := now } ∧
    ((TokenCache.default.insert reference op (.Bearer t) parse now).get
        reference op now).1 = some (.Bearer t) ∧
    ((TokenCache.default.insert reference op (.Bearer t) parse now).get
        reference op t2).1 = none := by
  have hres : resolve_expiration parse TokenCache.default.default_expiration_secs now
      (.Bearer t) = some now := by
    have hnow' : now < 18446744073709551616 := by
      have e : (2 : Nat) ^ 64 = 18446744073709551616 := by norm_num
      exact e ▸ hnow
    simp [resolve_expiration, hp, TokenCache.default, Nat.mod_eq_of_lt, hnow']
  have hstore := TokenCache.insert_stores TokenCache.default reference op (.Bearer t)
    parse now now hres
  exact ⟨rfl, hstore, TokenCache.get_hit _ reference op now _ hstore (Nat.le_refl now),
    TokenCache.get_expired _ reference op t2 _ hstore h2⟩

/-- Witness for C10 at concrete inputs: insertion at second 100 hits at 100
and misses at 101. -/
theorem C10_witness :
    ((TokenCache.default.insert ref0 .Pull (.Bearer (.Token "t0"))
        (parse_const .noClaimsComponent) 100).get ref0 .Pull 100).1
      = some (.Bearer (.Token "t0")) ∧
    ((TokenCache.default.insert ref0 .Pull (.Bearer (.Token "t0"))
        (parse_const .noClaimsComponent) 100).get ref0 .Pull 101).1 = none :=
  ⟨(C10_default_zero_fallback ref0 .Pull (.Token "t0") (parse_const .noClaimsComponent)
      100 101 rfl (by decide) (by decide)).2.2.1,
   (C10_default_zero_fallback ref0 .Pull (.Token "t0") (parse_const .noClaimsComponent)
      100 101 rfl (by decide) (by decide)).2.2.2⟩
